import Mathlib

/-!
MLDataPreparer: verification of the tabular transformation core

Shallow embedding of the repository's core (`src/core/processor.py`,
`src/core/validator.py`, `src/core/loader.py`) and of the session
controller (`src/interface/gui/controllers/data_controller.py`).

Modelling conventions:

* A pandas `DataFrame` is a column-oriented `Table`: an explicit row count
  plus an ordered list of named columns.  Cell values are `Value`:
  a missing marker (`NaN`/`NaT`), a rational number (pandas numerics are
  modelled over `ℚ`), a string, or a datetime.  Datetimes are modelled at
  day granularity as integer day numbers counted from 1970-01-01 (which
  was a Thursday; day 3 = 1970-01-04 is a Sunday).
* Python exceptions become an explicit `PError` value; a fallible call
  returns `Except PError Table`.  A `KeyError` raised for absent columns
  is modelled as `PError.columnNotFound reported`, where `reported` is
  exactly the list of column names that the Python error message names
  (possibly empty, when the message names no columns).
* Python functions that assign into their `DataFrame` argument
  (`df[name] = ...`) mutate the caller's object.  For those functions a
  companion definition `<f>_callerAfter` gives the state of the caller's
  argument object after the call; it is translated from the same source
  lines (each `df[col] = v` becomes `Table.setCol`).
* `add_column` in the source can fall off the end of the function and
  return Python `None`; its return type is therefore `Option Table`.
-/

/-- A cell value of the column store: missing marker (NaN/NaT), numeric
(pandas numerics over `ℚ`), string, or datetime (integer day number since
1970-01-01). -/
inductive Value where
  | na : Value
  | num : ℚ → Value
  | str : String → Value
  | dt : Int → Value
deriving DecidableEq, Repr

/-- A pandas DataFrame: a row count (the length of the index) and an
ordered association list of named columns. -/
structure Table where
  nrows : Nat
  cols : List (String × List Value)
deriving DecidableEq, Repr

/-- Well-formedness: every column holds exactly `nrows` values. -/
def Table.WF (t : Table) : Prop :=
  ∀ c ∈ t.cols, c.2.length = t.nrows

/-- The table's column names, in order (`df.columns`). -/
def Table.colNames (t : Table) : List String :=
  t.cols.map (·.1)

/-- Membership test `name in df.columns`. -/
def Table.hasCol (t : Table) (name : String) : Bool :=
  t.colNames.contains name

/-- Lookup `df[name]` as a list of cell values; `[]` when the column is absent. -/
def Table.getCol (t : Table) (name : String) : List Value :=
  match t.cols.find? (·.1 = name) with
  | some c => c.2
  | none => []

/-- The effect of the pandas assignment `df[name] = vals`: replace the
column in place when the name exists, otherwise append it at the end. -/
def Table.setCol (t : Table) (name : String) (vals : List Value) : Table :=
  if t.hasCol name then
    ⟨t.nrows, t.cols.map (fun c => if c.1 = name then (name, vals) else c)⟩
  else
    ⟨t.nrows, t.cols ++ [(name, vals)]⟩

/-- Errors raised by the core, mirroring the Python exceptions.
`columnNotFound reported` models a `KeyError` whose message names exactly
the columns in `reported`. `attributeError` models the failure of calling
a DataFrame operation on a live table that is Python `None`. -/
inductive PError where
  | columnNotFound : List String → PError
  | valueError : String → PError
  | missingValues : List String → PError
  | typeError : List String → PError
  | notImplemented : PError
  | attributeError : PError
deriving DecidableEq, Repr

/-! ## Processor: column operations (`src/core/processor.py`) -/

/-- Model of `drop_columns(df, columns)`: collects every requested name absent from
the frame; if any, raises `KeyError` listing the full missing set;
otherwise returns a new frame (`df.drop`) without those columns. -/
def drop_columns (df : Table) (columns : List String) : Except PError Table :=
  let missing := columns.filter (fun col => ¬ df.hasCol col)
  if missing ≠ [] then
    .error (.columnNotFound missing)
  else
    .ok ⟨df.nrows, df.cols.filter (fun c => ¬ columns.contains c.1)⟩

/-- Model of `add_column(df, name, values)`: three explicit branches
(`len(values) == 0`, `< n`, `> n`) each assign into `df` and return it;
when `len(values) == n` with `n ≠ 0` the function falls off the end and
returns Python `None` (hence the `Option`). -/
def add_column (df : Table) (name : String) (values : List Value) :
    Option Table :=
  let n := df.nrows
  if values.length = 0 then
    some (df.setCol name (List.replicate n Value.na))
  else if values.length < n then
    some (df.setCol name (values ++ List.replicate (n - values.length) Value.na))
  else if values.length > n then
    some (df.setCol name (values.take n))
  else
    none

/-- State of the caller's `df` object after `add_column` returns: the
branches that assign `df[name] = ...` mutate it; the fall-through branch
returns `None` without having assigned anything. -/
def add_column_callerAfter (df : Table) (name : String) (values : List Value) :
    Table :=
  let n := df.nrows
  if values.length = 0 then
    df.setCol name (List.replicate n Value.na)
  else if values.length < n then
    df.setCol name (values ++ List.replicate (n - values.length) Value.na)
  else if values.length > n then
    df.setCol name (values.take n)
  else
    df

/-- Model of `create_column_from_existing(df, new_name, func)`: assigns
`df[new_name] = func(df)` into the caller's frame and returns it.
The callback is modelled as `Table → List Value`. -/
def create_column_from_existing (df : Table) (new_name : String)
    (func : Table → List Value) : Table :=
  df.setCol new_name (func df)

/-- Caller's `df` after `create_column_from_existing`: the assignment
mutates the argument, so it equals the returned table. -/
def create_column_from_existing_callerAfter (df : Table) (new_name : String)
    (func : Table → List Value) : Table :=
  df.setCol new_name (func df)

/-- Model of `apply_transformation(df, column, func)`: `KeyError` if the column is
absent, else assigns `df[column] = df[column].apply(func)` and returns
`df`. -/
def apply_transformation (df : Table) (column : String) (func : Value → Value) :
    Except PError Table :=
  if ¬ df.hasCol column then
    .error (.columnNotFound [column])
  else
    .ok (df.setCol column ((df.getCol column).map func))

/-- Caller's `df` after `apply_transformation`: unchanged when the
`KeyError` fires (raised before any assignment), mutated otherwise. -/
def apply_transformation_callerAfter (df : Table) (column : String)
    (func : Value → Value) : Table :=
  if ¬ df.hasCol column then df
  else df.setCol column ((df.getCol column).map func)

/-! ## Processor: math and aggregation

Elementwise arithmetic between columns follows pandas missing-value
propagation: any operation touching a missing marker yields a missing
marker.  The model covers numeric (and missing) cells, the only cell
kinds the verified claims involve; pandas raises `TypeError` on
ill-typed operand pairs, which lie outside the modelled domain and are
mapped to the missing marker here. -/

/-- Elementwise `+` with NaN propagation. -/
def vAdd : Value → Value → Value
  | .num a, .num b => .num (a + b)
  | _, _ => .na

/-- Elementwise `-` with NaN propagation. -/
def vSub : Value → Value → Value
  | .num a, .num b => .num (a - b)
  | _, _ => .na

/-- Elementwise `*` with NaN propagation. -/
def vMul : Value → Value → Value
  | .num a, .num b => .num (a * b)
  | _, _ => .na

/-- Elementwise `(a + b) / 2` with NaN propagation. -/
def vMean2 : Value → Value → Value
  | .num a, .num b => .num ((a + b) / 2)
  | _, _ => .na

/-- Model of `math_operation(df, col1, col2, op, new_name)`: `KeyError` whose
message ("One or both columns not found in DataFrame.") names no columns
when either input column is absent; then dispatch on the `op` string,
assigning `df[new_name]` in place; unknown `op` raises `ValueError`
before any assignment. -/
def math_operation (df : Table) (col1 col2 : String) (op : String)
    (new_name : String) : Except PError Table :=
  if ¬ df.hasCol col1 ∨ ¬ df.hasCol col2 then
    .error (.columnNotFound [])
  else if op = "sum" then
    .ok (df.setCol new_name (List.zipWith vAdd (df.getCol col1) (df.getCol col2)))
  else if op = "diff" then
    .ok (df.setCol new_name (List.zipWith vSub (df.getCol col1) (df.getCol col2)))
  else if op = "prod" then
    .ok (df.setCol new_name (List.zipWith vMul (df.getCol col1) (df.getCol col2)))
  else if op = "mean" then
    .ok (df.setCol new_name (List.zipWith vMean2 (df.getCol col1) (df.getCol col2)))
  else
    .error (.valueError ("Unsupported operation: " ++ op))

/-- Caller's `df` after `math_operation`: both error paths raise before
any assignment, the four success paths assign `df[new_name]` in place. -/
def math_operation_callerAfter (df : Table) (col1 col2 : String) (op : String)
    (new_name : String) : Table :=
  match math_operation df col1 col2 op new_name with
  | .ok r => r
  | .error _ => df

/-! ### Aggregation vocabulary (pandas skip-NA semantics)

pandas aggregation strings (`'sum'`, `'mean'`, `'min'`, `'max'`,
`'count'`) are modelled as the enumeration `AggFun`.  All of them skip
missing markers.  With pandas defaults (`min_count=0`), `sum` of a set of
values that are all missing is `0` and `count` is `0`, while `mean`,
`min` and `max` of such a set are a missing marker. -/

inductive AggFun where
  | sum | mean | min | max | count
deriving DecidableEq, Repr

/-- The pandas aggregation-function name of an `AggFun`. -/
def aggName : AggFun → String
  | .sum => "sum"
  | .mean => "mean"
  | .min => "min"
  | .max => "max"
  | .count => "count"

/-- The numeric values of a cell list, with missing markers (and any
non-numeric cells, outside the modelled domain) removed — the multiset a
skip-NA aggregation computes over. -/
def nonNA (vs : List Value) : List ℚ :=
  vs.filterMap (fun v => match v with | .num q => some q | _ => none)

/-- Minimum of a rational list, `none` when empty. -/
def listMin : List ℚ → Option ℚ
  | [] => none
  | x :: xs => some (xs.foldl min x)

/-- Maximum of a rational list, `none` when empty. -/
def listMax : List ℚ → Option ℚ
  | [] => none
  | x :: xs => some (xs.foldl max x)

/-- Apply one pandas aggregation to the cells of one group/bucket/column,
with pandas NA semantics (skip-NA; empty ⇒ `0` for `sum`/`count`,
missing marker for `mean`/`min`/`max`). -/
def applyAgg : AggFun → List Value → Value
  | .sum, vs => .num (nonNA vs).sum
  | .mean, vs =>
      match nonNA vs with
      | [] => .na
      | xs => .num (xs.sum / xs.length)
  | .min, vs =>
      match listMin (nonNA vs) with
      | some q => .num q
      | none => .na
  | .max, vs =>
      match listMax (nonNA vs) with
      | some q => .num q
      | none => .na
  | .count, vs => .num ((vs.filter (· ≠ .na)).length)

/-- Distinct values in first-occurrence order.  (pandas `groupby` sorts
group keys by default; `Value` carries no total order, so the model keeps
first-occurrence order — the per-group contents, which the claims are
about, are unaffected.) -/
def distinctKeys (ks : List Value) : List Value :=
  ks.foldl (fun acc v => if acc.contains v then acc else acc ++ [v]) []

/-- The cells of `vals` at the row positions where `keys` holds `k`. -/
def groupVals (keys vals : List Value) (k : Value) : List Value :=
  ((keys.zip vals).filter (fun p => p.1 = k)).map (·.2)

/-- Model of `group_and_aggregate(df, by, agg_funcs)` =
`df.groupby(by).agg(agg_funcs).reset_index()`, for a single grouping
column.  `groupby` raises `KeyError` when `by` is absent; `.agg` raises
`KeyError` listing the absent aggregation columns.  Rows whose key is a
missing marker are dropped (`groupby` default `dropna=True`).  The
MultiIndex output column `(c, f)` is flattened to the name `c ++ "_" ++
aggName f`; `reset_index` materializes the key column first. -/
def group_and_aggregate (df : Table) (by_ : String)
    (agg_funcs : List (String × List AggFun)) : Except PError Table :=
  if ¬ df.hasCol by_ then
    .error (.columnNotFound [by_])
  else
    let missingAgg := (agg_funcs.map (·.1)).filter (fun c => ¬ df.hasCol c)
    if missingAgg ≠ [] then
      .error (.columnNotFound missingAgg)
    else
      let keys := df.getCol by_
      let gs := distinctKeys (keys.filter (· ≠ .na))
      .ok ⟨gs.length,
        (by_, gs) ::
          agg_funcs.flatMap (fun cf =>
            cf.2.map (fun f =>
              (cf.1 ++ "_" ++ aggName f,
               gs.map (fun k => applyAgg f (groupVals keys (df.getCol cf.1) k)))))⟩

/-! ## Processor: time-series operations -/

/-- The numeric contents of a full rolling window, provided every cell is
numeric; `none` as soon as one cell is a missing marker (or non-numeric).
pandas `rolling(window=w)` uses `min_periods = w` by default, so a window
with fewer than `w` non-missing observations yields `NaN`. -/
def allNums : List Value → Option (List ℚ)
  | [] => some []
  | .num q :: rest => (allNums rest).map (q :: ·)
  | _ => none

/-- Rolling statistic of one full window of numeric values. -/
def rollOfAgg (f : List ℚ → ℚ) (vs : List Value) : Value :=
  match allNums vs with
  | some xs => .num (f xs)
  | none => .na

/-- Model of `series.rolling(window=w).<f>()`: position `i` holds a missing
marker while the window is still partial (`i + 1 < w`) or when the
trailing `w`-cell window contains any missing marker (default
`min_periods = w`); otherwise the statistic of the trailing `w` cells. -/
def rollingApply (vs : List Value) (window : Nat) (f : List ℚ → ℚ) :
    List Value :=
  (List.range vs.length).map (fun i =>
    if i + 1 < window then .na
    else rollOfAgg f ((vs.drop (i + 1 - window)).take window))

/-- Mean of a rational list (callers pass nonempty windows). -/
def qMean (xs : List ℚ) : ℚ := xs.sum / xs.length

/-- Minimum of a rational list, `0` on the empty list (callers pass
nonempty windows: `window ≥ 1` in pandas). -/
def qMin (xs : List ℚ) : ℚ := (listMin xs).getD 0

/-- Maximum of a rational list, `0` on the empty list. -/
def qMax (xs : List ℚ) : ℚ := (listMax xs).getD 0

/-- Model of `rolling_stat(df, column, window, func)`: `KeyError` when the column
is absent, then dispatch on the `func` string over
`df[column].rolling(window)`; an unsupported string raises `ValueError`.
The source also supports `func = "std"` (sample standard deviation); its
values are irrational and not representable in this ℚ-valued model, so
`"std"` is omitted from the model (no verified claim refers to it) and
falls into the unsupported branch here. -/
def rolling_stat (df : Table) (column : String) (window : Nat)
    (func : String) : Except PError (List Value) :=
  if ¬ df.hasCol column then
    .error (.columnNotFound [column])
  else if func = "mean" then
    .ok (rollingApply (df.getCol column) window qMean)
  else if func = "sum" then
    .ok (rollingApply (df.getCol column) window List.sum)
  else if func = "min" then
    .ok (rollingApply (df.getCol column) window qMin)
  else if func = "max" then
    .ok (rollingApply (df.getCol column) window qMax)
  else
    .error (.valueError ("Unsupported rolling function: " ++ func))

/-- Model of `pd.to_datetime` over a column of already-datetime values: the
claims' hypothesis is a parseable datetime column, modelled as every
cell being a `Value.dt`; any other cell makes parsing fail. -/
def parseDates : List Value → Option (List Int)
  | [] => some []
  | .dt d :: rest => (parseDates rest).map (d :: ·)
  | _ => none

/-- The start (day number) of the Sunday-anchored week containing day
`d`: the greatest day `≡ 3 (mod 7)` (a Sunday, since day 3 =
1970-01-04 is a Sunday) that is `≤ d`.  This is the left edge of the
`resample("W-SUN", label="left", closed="left")` bucket of `d`. -/
def weekStart (d : Int) : Int := d - (d - 3) % 7

/-- The cells of `vals` whose corresponding date is bucketed to label
`l`. -/
def bucketVals (dates : List Int) (vals : List Value) (bucket : Int → Int)
    (l : Int) : List Value :=
  ((dates.zip vals).filter (fun p => bucket p.1 = l)).map (·.2)

/-- Resampling once the datetime index is established: bucket labels run
from the bucket of the earliest date to the bucket of the latest date in
steps of `step` (pandas emits intermediate empty buckets too), the label
column is materialized first (`reset_index`), and each aggregation
column holds the per-bucket skip-NA aggregate. -/
def resampleBy (df : Table) (dates : List Int) (bucket : Int → Int)
    (step : Int) (datetime_col : String)
    (agg_funcs : List (String × AggFun)) : Table :=
  match dates with
  | [] => ⟨0, (datetime_col, []) :: agg_funcs.map (fun cf => (cf.1, []))⟩
  | d0 :: rest =>
    let lo := bucket (rest.foldl min d0)
    let hi := bucket (rest.foldl max d0)
    let nb := ((hi - lo) / step).toNat + 1
    let labels := (List.range nb).map (fun i : Nat => lo + step * (i : Int))
    ⟨nb,
      (datetime_col, labels.map Value.dt) ::
        agg_funcs.map (fun cf =>
          (cf.1, labels.map (fun l =>
            applyAgg cf.2 (bucketVals dates (df.getCol cf.1) bucket l))))⟩

/-- Model of `resample_time_series(df, datetime_col, freq, agg_funcs)`: `KeyError`
when the datetime column is absent; parse the column with
`pd.to_datetime` (working on `df.copy()`, so the caller's frame is never
mutated); `.agg` raises `KeyError` for absent aggregation columns.  The
source forces `freq.upper() == "W"` (which holds exactly for the strings
`"W"` and `"w"`, the form used here) to
`resample("W-SUN", label="left", closed="left")` — Sunday-anchored,
left-closed, left-labeled weekly buckets — and passes any other
frequency straight to pandas; the model covers `"W"` and daily `"D"`
(other pandas frequency strings are outside the model). -/
def resample_time_series (df : Table) (datetime_col : String) (freq : String)
    (agg_funcs : List (String × AggFun)) : Except PError Table :=
  if ¬ df.hasCol datetime_col then
    .error (.columnNotFound [datetime_col])
  else
    match parseDates (df.getCol datetime_col) with
    | none => .error (.valueError "unparseable datetime column")
    | some dates =>
      let missingAgg := (agg_funcs.map (·.1)).filter (fun c => ¬ df.hasCol c)
      if missingAgg ≠ [] then
        .error (.columnNotFound missingAgg)
      else if freq = "W" ∨ freq = "w" then
        .ok (resampleBy df dates weekStart 7 datetime_col agg_funcs)
      else if freq = "D" then
        .ok (resampleBy df dates id 1 datetime_col agg_funcs)
      else
        .error (.valueError ("frequency not modelled: " ++ freq))

/-! ## Validator (`src/core/validator.py`) -/

/-- The pandas dtype string of a column, for the cell universe of this
model: any string cell makes the column `object`; otherwise datetimes
give `datetime64[ns]`; a purely numeric column is `float64` when a
missing marker forces the float promotion and `int64` otherwise (numeric
cells are modelled at ℚ without an int/float distinction; the claims
only exercise the absent-column path of type validation). -/
def dtype (vs : List Value) : String :=
  if vs.any (fun v => match v with | .str _ => true | _ => false) then
    "object"
  else if vs.any (fun v => match v with | .dt _ => true | _ => false) then
    "datetime64[ns]"
  else if vs.contains .na then
    "float64"
  else
    "int64"

/-- Model of `validate_no_missing(df, columns=None)`: the source computes
`cols = columns or df.columns.tolist()`, so both `None` and the empty
list (falsy in Python) select every column; `df[cols]` raises `KeyError`
for selected columns absent from the frame; then a `ValueError` carrying
the per-column missing counts fires when any selected column contains a
missing marker.  `missingValues` records the offending column names (the
keys of the reported count mapping). -/
def validate_no_missing (df : Table) (columns : Option (List String)) :
    Except PError Bool :=
  let cols :=
    match columns with
    | none => df.colNames
    | some cs => if cs.isEmpty then df.colNames else cs
  let bad := cols.filter (fun c => ¬ df.hasCol c)
  if bad ≠ [] then
    .error (.columnNotFound bad)
  else
    let offending := cols.filter (fun c => (df.getCol c).contains .na)
    if offending ≠ [] then
      .error (.missingValues offending)
    else
      .ok true

/-- Model of `validate_column_types(df, expected_types)`: iterates the expectation
mapping in insertion order; the first absent column raises
`KeyError(f"Column '{col}' not found")` — naming only that one column —
before the remaining expectations are examined; when all columns exist,
a `TypeError` carries every dtype mismatch at once. -/
def validate_column_types (df : Table)
    (expected_types : List (String × String)) : Except PError Bool :=
  match expected_types.find? (fun p => ¬ df.hasCol p.1) with
  | some p => .error (.columnNotFound [p.1])
  | none =>
    let mismatches :=
      (expected_types.filter (fun p => dtype (df.getCol p.1) ≠ p.2)).map (·.1)
    if mismatches ≠ [] then
      .error (.typeError mismatches)
    else
      .ok true

/-! ## Loader (`src/core/loader.py`) -/

/-- First `n` rows of the table. -/
def Table.takeRows (t : Table) (n : Nat) : Table :=
  ⟨min n t.nrows, t.cols.map (fun c => (c.1, c.2.take n))⟩

/-- The table without its first `n` rows. -/
def Table.dropRows (t : Table) (n : Nat) : Table :=
  ⟨t.nrows - n, t.cols.map (fun c => (c.1, c.2.drop n))⟩

/-- pandas `df.head(n)`: the first `n` rows when `n ≥ 0`; for `n < 0`,
everything but the last `|n|` rows. -/
def pandasHead (t : Table) (n : Int) : Table :=
  if 0 ≤ n then t.takeRows n.toNat
  else t.takeRows (t.nrows - (-n).toNat)

/-- pandas `df.tail(n)`: the last `n` rows when `n ≥ 0`; for `n < 0`,
everything but the first `|n|` rows. -/
def pandasTail (t : Table) (n : Int) : Table :=
  if 0 ≤ n then t.dropRows (t.nrows - n.toNat)
  else t.dropRows (-n).toNat

/-- Model of `preview_dataframe(df, row_number, tail=False)`: the function body is
a bare `raise NotImplementedError()` — it fails identically on every
input, performing no row selection and no argument validation. -/
def preview_dataframe (_df : Table) (_row_number : Int) (_tail : Bool) :
    Except PError Table :=
  .error .notImplemented

/-! ## Session Controller
(`src/interface/gui/controllers/data_controller.py`)

The controller owns `self.df : Optional[DataFrame]` plus the two history
stacks.  `_save_state` pushes a deep copy of the live table onto the undo
stack and clears the redo stack — and it runs *before* the delegated core
call.  Deep copies compare equal to their originals, so snapshots are
plain `Table` values here. -/

structure ControllerState where
  df : Option Table
  undoStack : List Table
  redoStack : List Table
deriving DecidableEq, Repr

/-- Model of `_save_state`: when a live table exists, push a deep copy on the undo
stack and clear the redo stack; otherwise do nothing. -/
def saveState (s : ControllerState) : ControllerState :=
  match s.df with
  | none => s
  | some t => ⟨some t, t :: s.undoStack, []⟩

/-- The shape shared by every mutating controller method:
`self._save_state(); self.df = coreCall(self.df); return self.df`.
When the live table is `None`, `_save_state` does nothing and the
delegated call fails on the `None` argument (`AttributeError`); when the
delegated call raises, the exception propagates after `_save_state` has
already run, leaving `self.df` unassigned. -/
def mutateOp (op : Table → Except PError Table) (s : ControllerState) :
    ControllerState × Option PError :=
  match s.df with
  | none => (saveState s, some .attributeError)
  | some t =>
    let s1 := saveState s
    match op t with
    | .ok t2 => ({ s1 with df := some t2 }, none)
    | .error e => (s1, some e)

/-- Model of `undo()`: no-op returning the live table when the undo stack is
empty; otherwise push a deep copy of the live table on the redo stack and
pop the undo stack into the live table.  (With an empty live table and a
nonempty stack, `self.df.copy(deep=True)` raises before any state is
touched, so the state is likewise unchanged.) -/
def undoState (s : ControllerState) : ControllerState :=
  match s.undoStack, s.df with
  | [], _ => s
  | t :: rest, some cur => ⟨some t, rest, cur :: s.redoStack⟩
  | _ :: _, none => s

/-- Model of `redo()`: symmetric to `undo()`. -/
def redoState (s : ControllerState) : ControllerState :=
  match s.redoStack, s.df with
  | [], _ => s
  | t :: rest, some cur => ⟨some t, cur :: s.undoStack, rest⟩
  | _ :: _, none => s

/-- Model of `load(filepath)`: replace the live table with the freshly loaded one
and clear both history stacks. -/
def loadState (t : Table) (_s : ControllerState) : ControllerState :=
  ⟨some t, [], []⟩

/-- Model of `DataController.add_column`: `self._save_state(); self.df =
add_column(self.df, name, values)`.  `add_column` returns an `Option`,
so the live table can become `None` without any exception. -/
def ctrl_add_column (s : ControllerState) (name : String)
    (values : List Value) : ControllerState × Option PError :=
  match s.df with
  | none => (saveState s, some .attributeError)
  | some t =>
    let s1 := saveState s
    ({ s1 with df := add_column t name values }, none)

/-- Model of `DataController.preview_rows(rows, tail)`: returns
`self.df.tail(rows)` or `self.df.head(rows)` directly — no argument
validation of any kind; fails only when no table is loaded. -/
def preview_rows (s : ControllerState) (rows : Int) (tail : Bool) :
    Except PError Table :=
  match s.df with
  | none => .error .attributeError
  | some t => .ok (if tail then pandasTail t rows else pandasHead t rows)

/-- Run a sequence of mutating controller calls, threading the state
(the per-call results are inspected separately via `allSucceed`). -/
def applyAll (ops : List (Table → Except PError Table))
    (s : ControllerState) : ControllerState :=
  match ops with
  | [] => s
  | op :: rest => applyAll rest (mutateOp op s).1

/-- Every call of the sequence succeeds (raises no exception). -/
def allSucceed : List (Table → Except PError Table) → ControllerState → Prop
  | [], _ => True
  | op :: rest, s => (mutateOp op s).2 = none ∧ allSucceed rest (mutateOp op s).1

/-! ## Concrete instances used by counterexamples and witnesses -/

/-- A two-row table with one numeric column. -/
def tAB : Table := ⟨2, [("a", [.num 1, .num 2])]⟩

/-- A one-row table with one numeric column. -/
def tOne : Table := ⟨1, [("a", [.num 1])]⟩

/-- A table whose `v` column is entirely missing within the single
group `A`. -/
def tAllNA : Table := ⟨2, [("k", [.str "A", .str "A"]), ("v", [.na, .na])]⟩

/-- Seven consecutive days (day 3 = Sunday 2023-01-01 analogue through
day 9 = Saturday) with values 1..7, mirroring
`test_resample_time_series_daily_to_weekly`. -/
def tWeek : Table :=
  ⟨7, [("ts", [.dt 3, .dt 4, .dt 5, .dt 6, .dt 7, .dt 8, .dt 9]),
       ("value", [.num 1, .num 2, .num 3, .num 4, .num 5, .num 6, .num 7])]⟩

/-- A controller state with a live table, an empty undo stack and a
nonempty redo stack. -/
def sCtrl : ControllerState := ⟨some tAB, [], [tOne]⟩

/-- A delegated core call that always fails: dropping an absent column. -/
def opDropZZ : Table → Except PError Table := fun t => drop_columns t ["zz"]

/-- A successful mutating call on `tAB`: dropping column `a`. -/
def opDropA : Table → Except PError Table := fun t => drop_columns t ["a"]

/-- A successful mutating call: appending a padded column `p`. -/
def opAddP : Table → Except PError Table := fun t =>
  match add_column t "p" [.num 9] with
  | some r => .ok r
  | none => .error .attributeError

/-- The two-operation run used by the undo/redo witness. -/
def ops2 : List (Table → Except PError Table) := [opAddP, opDropA]

/-! ## Shared lemmas -/

theorem hasCol_iff_mem (t : Table) (name : String) :
    t.hasCol name = true ↔ name ∈ t.colNames := by
  simp [Table.hasCol]

theorem hasCol_setCol (t : Table) (name : String) (vals : List Value) :
    (t.setCol name vals).hasCol name = true := by
  unfold Table.setCol
  by_cases h : t.hasCol name
  · simp only [h, if_true]
    rw [hasCol_iff_mem]
    rw [hasCol_iff_mem] at h
    obtain ⟨c0, hc0, hfst⟩ := List.mem_map.mp h
    exact List.mem_map.mpr ⟨(name, vals),
      List.mem_map.mpr ⟨c0, hc0, by simp [hfst]⟩, rfl⟩
  · simp only [h, if_false]
    rw [hasCol_iff_mem]
    simp [Table.colNames]

theorem add_column_eq_none_iff (df : Table) (name : String)
    (values : List Value) :
    add_column df name values = none ↔
      values.length = df.nrows ∧ values ≠ [] := by
  unfold add_column
  by_cases h0 : values.length = 0
  · have hv : values = [] := List.length_eq_zero.mp h0
    subst hv
    simp
  · rw [if_neg h0]
    by_cases h1 : values.length < df.nrows
    · rw [if_pos h1]
      constructor
      · intro h; simp at h
      · rintro ⟨he, _⟩; omega
    · rw [if_neg h1]
      by_cases h2 : values.length > df.nrows
      · rw [if_pos h2]
        constructor
        · intro h; simp at h
        · rintro ⟨he, _⟩; omega
      · rw [if_neg h2]
        constructor
        · intro _
          exact ⟨by omega, fun hnil => h0 (by simp [hnil])⟩
        · intro _; rfl

/-! ## Claim C6 -/

/-- C6: the spec's `addColumn` policy says a table containing the new
column is always returned (pad when shorter, truncate when longer,
all-missing when empty).  The code instead falls through every branch
precisely when `len(values) == rowCount > 0` and returns `None`: the
claimed "always returns a table" is exactly the case the code misses. -/
theorem C6_add_column_equal_length_returns_none (df : Table) (name : String)
    (values : List Value) (hlen : values.length = df.nrows)
    (hne : values ≠ []) :
    add_column df name values = none :=
  (add_column_eq_none_iff df name values).mpr ⟨hlen, hne⟩

theorem C6_add_column_equal_length_returns_none_witness :
    [Value.num 2].length = tOne.nrows ∧ ([Value.num 2] ≠ []) ∧
      add_column tOne "b" [Value.num 2] = none :=
  ⟨rfl, by decide,
    C6_add_column_equal_length_returns_none tOne "b" [Value.num 2] rfl
      (by decide)⟩

/-! ## Claim C7 -/

/-- C7: when the provided values list has exactly the live table's row
count (and the table is nonempty), `add_column` returns `None`, the
controller assigns `self.df = None` without raising, and every
subsequent delegated operation and preview on the live table fails. -/
theorem C7_add_column_none_poisons_controller (s : ControllerState)
    (t : Table) (name : String) (values : List Value)
    (hdf : s.df = some t) (hlen : values.length = t.nrows)
    (hne : values ≠ []) :
    (ctrl_add_column s name values).1.df = none ∧
    (ctrl_add_column s name values).2 = none ∧
    (∀ op, (mutateOp op (ctrl_add_column s name values).1).2 =
      some PError.attributeError) ∧
    (∀ rows b, preview_rows (ctrl_add_column s name values).1 rows b =
      .error PError.attributeError) := by
  have hnone := (add_column_eq_none_iff t name values).mpr ⟨hlen, hne⟩
  obtain ⟨d, u, r⟩ := s
  simp only at hdf
  subst hdf
  simp [ctrl_add_column, saveState, hnone, mutateOp, preview_rows]

theorem C7_add_column_none_poisons_controller_witness :
    sCtrl.df = some tAB ∧
    (ctrl_add_column sCtrl "b" [Value.num 5, Value.num 6]).1.df = none ∧
    (mutateOp opDropA (ctrl_add_column sCtrl "b"
      [Value.num 5, Value.num 6]).1).2 = some PError.attributeError :=
  ⟨rfl,
    (C7_add_column_none_poisons_controller sCtrl tAB "b"
      [Value.num 5, Value.num 6] rfl rfl (by decide)).1,
    (C7_add_column_none_poisons_controller sCtrl tAB "b"
      [Value.num 5, Value.num 6] rfl rfl (by decide)).2.2.1 opDropA⟩

/-! ## Claim C9 -/

/-- C9: the spec promises that `preview` returns the first/last
`rowCount` rows and rejects `rowCount ≤ 0` with `InvalidArgument`; the
body of `preview_dataframe` is a bare `raise NotImplementedError()`, so
it fails identically on every input — contradicting the repository's own
`test_preview_dataframe_head`/`_tail`, which expect `df.head(n)` /
`df.tail(n)` behaviour. -/
theorem C9_preview_dataframe_not_implemented (df : Table) (n : Int)
    (b : Bool) :
    preview_dataframe df n b = .error PError.notImplemented := rfl

/-! ## Claim C10 -/

/-- C10: `validate_no_missing` with an explicitly empty column list does
not trivially validate zero columns: `columns or df.columns.tolist()`
treats the empty list like `None`, so every column is selected, and the
call succeeds exactly when no column anywhere in the table contains a
missing marker. -/
theorem C10_validate_no_missing_empty_list (df : Table) :
    validate_no_missing df (some []) = validate_no_missing df none ∧
    (validate_no_missing df (some []) = .ok true ↔
      ∀ c ∈ df.colNames, (df.getCol c).contains Value.na = false) := by
  have hbad : (df.colNames.filter (fun c => ¬ df.hasCol c)) = [] := by
    rw [List.filter_eq_nil_iff]
    intro c hc
    simp [(hasCol_iff_mem df c).mpr hc]
  constructor
  · rfl
  · by_cases hoff :
        (df.colNames.filter (fun c => (df.getCol c).contains Value.na)) = []
    · simp only [validate_no_missing, List.isEmpty_nil, if_true, hbad, hoff,
        ne_eq, not_true_eq_false, if_false, not_false_eq_true]
      simp only [true_iff]
      intro c hc
      have := List.filter_eq_nil_iff.mp hoff c hc
      simpa using this
    · simp only [validate_no_missing, List.isEmpty_nil, if_true, hbad, hoff,
        ne_eq, not_true_eq_false, if_false, not_false_eq_true, if_true,
        reduceCtorEq, false_iff, not_forall]
      by_contra hall
      push_neg at hall
      exact hoff (List.filter_eq_nil_iff.mpr (fun c hc => by
        simpa using hall c hc))

/-! ## Claim C3 -/

/-- C3 counterexample: the claim says the caller's table object is
unchanged after every Processor call; but `add_column` and
`math_operation` assign into the caller's frame (`df[name] = ...`), so
after a successful call the caller's table has gained a column. -/
theorem C3_counterexample :
    add_column_callerAfter tAB "b" [Value.num 5] ≠ tAB ∧
    math_operation_callerAfter tAB "a" "a" "sum" "s2" ≠ tAB := by
  decide

/-- C3 amended: `drop_columns` and the row/group/resample/rolling
operations return fresh frames, but `add_column`,
`create_column_from_existing`, `apply_transformation` and
`math_operation` write the new column into the caller's table in place:
after a successful call the caller's table is the returned table (which
contains the written column), and it is left unchanged only when the
call raises before assigning (or when `add_column` falls through to
`None`). -/
theorem C3_inplace_mutation :
    (∀ df name values r, add_column df name values = some r →
      add_column_callerAfter df name values = r ∧ r.hasCol name = true) ∧
    (∀ df name values, add_column df name values = none →
      add_column_callerAfter df name values = df) ∧
    (∀ df nn f, create_column_from_existing_callerAfter df nn f =
      create_column_from_existing df nn f ∧
      (create_column_from_existing df nn f).hasCol nn = true) ∧
    (∀ df c f r, apply_transformation df c f = .ok r →
      apply_transformation_callerAfter df c f = r ∧ r.hasCol c = true) ∧
    (∀ df c f e, apply_transformation df c f = .error e →
      apply_transformation_callerAfter df c f = df) ∧
    (∀ df c1 c2 op nn r, math_operation df c1 c2 op nn = .ok r →
      math_operation_callerAfter df c1 c2 op nn = r ∧ r.hasCol nn = true) ∧
    (∀ df c1 c2 op nn e, math_operation df c1 c2 op nn = .error e →
      math_operation_callerAfter df c1 c2 op nn = df) := by
  refine ⟨?_, ?_, ?_, ?_, ?_, ?_, ?_⟩
  · intro df name values r h
    unfold add_column at h
    unfold add_column_callerAfter
    by_cases h0 : values.length = 0
    · rw [if_pos h0] at h ⊢
      injection h with h
      subst h
      exact ⟨rfl, hasCol_setCol df name _⟩
    · rw [if_neg h0] at h ⊢
      by_cases h1 : values.length < df.nrows
      · rw [if_pos h1] at h ⊢
        injection h with h
        subst h
        exact ⟨rfl, hasCol_setCol df name _⟩
      · rw [if_neg h1] at h ⊢
        by_cases h2 : values.length > df.nrows
        · rw [if_pos h2] at h ⊢
          injection h with h
          subst h
          exact ⟨rfl, hasCol_setCol df name _⟩
        · rw [if_neg h2] at h
          exact Option.noConfusion h
  · intro df name values h
    unfold add_column at h
    unfold add_column_callerAfter
    by_cases h0 : values.length = 0
    · rw [if_pos h0] at h
      exact Option.noConfusion h
    · rw [if_neg h0] at h ⊢
      by_cases h1 : values.length < df.nrows
      · rw [if_pos h1] at h
        exact Option.noConfusion h
      · rw [if_neg h1] at h ⊢
        by_cases h2 : values.length > df.nrows
        · rw [if_pos h2] at h
          exact Option.noConfusion h
        · rw [if_neg h2]
  · intro df nn f
    exact ⟨rfl, hasCol_setCol df nn _⟩
  · intro df c f r h
    unfold apply_transformation at h
    unfold apply_transformation_callerAfter
    by_cases hc : ¬ df.hasCol c
    · rw [if_pos hc] at h
      exact Except.noConfusion h
    · rw [if_neg hc] at h ⊢
      injection h with h
      subst h
      exact ⟨rfl, hasCol_setCol df c _⟩
  · intro df c f e h
    unfold apply_transformation at h
    unfold apply_transformation_callerAfter
    by_cases hc : ¬ df.hasCol c
    · rw [if_pos hc]
    · rw [if_neg hc] at h
      exact Except.noConfusion h
  · intro df c1 c2 op nn r h
    refine ⟨by unfold math_operation_callerAfter; rw [h], ?_⟩
    unfold math_operation at h
    by_cases hk : ¬ df.hasCol c1 ∨ ¬ df.hasCol c2
    · rw [if_pos hk] at h
      exact Except.noConfusion h
    · rw [if_neg hk] at h
      by_cases hs : op = "sum"
      · rw [if_pos hs] at h
        injection h with h
        subst h
        exact hasCol_setCol df nn _
      · rw [if_neg hs] at h
        by_cases hd : op = "diff"
        · rw [if_pos hd] at h
          injection h with h
          subst h
          exact hasCol_setCol df nn _
        · rw [if_neg hd] at h
          by_cases hp : op = "prod"
          · rw [if_pos hp] at h
            injection h with h
            subst h
            exact hasCol_setCol df nn _
          · rw [if_neg hp] at h
            by_cases hm : op = "mean"
            · rw [if_pos hm] at h
              injection h with h
              subst h
              exact hasCol_setCol df nn _
            · rw [if_neg hm] at h
              exact Except.noConfusion h
  · intro df c1 c2 op nn e h
    unfold math_operation_callerAfter
    rw [h]

theorem C3_inplace_mutation_witness :
    add_column_callerAfter tAB "b" [Value.num 5] =
      Table.setCol tAB "b" [Value.num 5, Value.na] ∧
    (Table.setCol tAB "b" [Value.num 5, Value.na]).hasCol "b" = true :=
  C3_inplace_mutation.1 tAB "b" [Value.num 5]
    (Table.setCol tAB "b" [Value.num 5, Value.na]) (by decide)

/-! ## Claim C8 -/

/-- C8 counterexample: with columns `b` and `c` both absent,
`validate_column_types` raises a `KeyError` naming only `b` — the first
missing column encountered, not the complete missing set — and
`math_operation`'s `KeyError` message names no columns at all. -/
theorem C8_counterexample :
    validate_column_types tOne [("b", "int64"), ("c", "int64")] =
      .error (.columnNotFound ["b"]) ∧
    PError.columnNotFound ["b"] ≠ PError.columnNotFound ["b", "c"] ∧
    math_operation tAB "a" "zz" "sum" "r" = .error (.columnNotFound []) := by
  refine ⟨rfl, by decide, rfl⟩

/-- C8 amended: only `drop_columns` reports the complete missing set;
`math_operation`'s column-not-found error names no columns, and
`validate_column_types` reports only the first missing column in the
iteration order of the expectation mapping. -/
theorem C8_reported_missing_sets :
    (∀ df cols, cols.filter (fun c => ¬ df.hasCol c) ≠ [] →
      drop_columns df cols =
        .error (.columnNotFound (cols.filter (fun c => ¬ df.hasCol c)))) ∧
    (∀ df c1 c2 op nn, (¬ df.hasCol c1 ∨ ¬ df.hasCol c2) →
      math_operation df c1 c2 op nn = .error (.columnNotFound [])) ∧
    (∀ df ets p, ets.find? (fun q => ¬ df.hasCol q.1) = some p →
      validate_column_types df ets = .error (.columnNotFound [p.1])) := by
  refine ⟨?_, ?_, ?_⟩
  · intro df cols hne
    unfold drop_columns
    rw [if_pos hne]
  · intro df c1 c2 op nn hk
    unfold math_operation
    rw [if_pos hk]
  · intro df ets p hp
    unfold validate_column_types
    rw [hp]

theorem C8_reported_missing_sets_witness :
    drop_columns tOne ["b", "c"] = .error (.columnNotFound ["b", "c"]) ∧
    math_operation tAB "a" "zz" "sum" "r" = .error (.columnNotFound []) ∧
    validate_column_types tOne [("b", "int64"), ("c", "int64")] =
      .error (.columnNotFound ["b"]) := by
  refine ⟨?_, ?_, ?_⟩
  · have h := C8_reported_missing_sets.1 tOne ["b", "c"] (by decide)
    simpa using h
  · exact C8_reported_missing_sets.2.1 tAB "a" "zz" "sum" "r" (by decide)
  · exact C8_reported_missing_sets.2.2 tOne [("b", "int64"), ("c", "int64")]
      ("b", "int64") (by decide)

/-! ## Claim C1 -/

/-- C1 counterexample: a failing delegated call does not leave the
history stacks as they were — `_save_state` has already pushed a
snapshot on the undo stack and cleared the redo stack before the
delegated call raised. -/
theorem C1_counterexample :
    (mutateOp opDropZZ sCtrl).2 = some (PError.columnNotFound ["zz"]) ∧
    (mutateOp opDropZZ sCtrl).1.df = sCtrl.df ∧
    (mutateOp opDropZZ sCtrl).1.undoStack ≠ sCtrl.undoStack ∧
    (mutateOp opDropZZ sCtrl).1.redoStack ≠ sCtrl.redoStack := by
  decide

/-- C1 amended: when the delegated core call raises, the live table is
indeed unchanged (the assignment `self.df = ...` never runs), but the
snapshot pushed by `_save_state` remains on the undo stack and the redo
stack has been cleared. -/
theorem C1_failed_mutation_state (op : Table → Except PError Table)
    (s : ControllerState) (t : Table) (e : PError)
    (hdf : s.df = some t) (herr : op t = .error e) :
    mutateOp op s = (⟨some t, t :: s.undoStack, []⟩, some e) := by
  obtain ⟨d, u, r⟩ := s
  simp only at hdf
  subst hdf
  simp [mutateOp, saveState, herr]

theorem C1_failed_mutation_state_witness :
    sCtrl.df = some tAB ∧ opDropZZ tAB = .error (.columnNotFound ["zz"]) ∧
    mutateOp opDropZZ sCtrl =
      (⟨some tAB, tAB :: sCtrl.undoStack, []⟩,
        some (PError.columnNotFound ["zz"])) :=
  ⟨rfl, rfl,
    C1_failed_mutation_state opDropZZ sCtrl tAB (.columnNotFound ["zz"])
      rfl rfl⟩

/-! ## Claim C2 -/

theorem undo_redo_run (ops : List (Table → Except PError Table)) :
    ∀ (t0 : Table) (u r : List Table),
      allSucceed ops ⟨some t0, u, r⟩ →
      ∃ rs, undoState^[ops.length] (applyAll ops ⟨some t0, u, r⟩) =
              ⟨some t0, u, rs⟩ ∧
            redoState^[ops.length] (⟨some t0, u, rs⟩ : ControllerState) =
              applyAll ops ⟨some t0, u, r⟩ := by
  induction ops with
  | nil =>
    intro t0 u r _
    exact ⟨r, rfl, rfl⟩
  | cons op rest ih =>
    intro t0 u r hs
    obtain ⟨h1, h2⟩ := hs
    cases hop : op t0 with
    | error e =>
      exfalso
      have hm : (mutateOp op ⟨some t0, u, r⟩).2 = some e := by
        simp [mutateOp, saveState, hop]
      rw [hm] at h1
      exact Option.noConfusion h1
    | ok t1 =>
      have hm : mutateOp op ⟨some t0, u, r⟩ =
          (⟨some t1, t0 :: u, []⟩, none) := by
        simp [mutateOp, saveState, hop]
      have happ : applyAll (op :: rest) ⟨some t0, u, r⟩ =
          applyAll rest ⟨some t1, t0 :: u, []⟩ := by
        simp only [applyAll, hm]
      rw [hm] at h2
      obtain ⟨rs, hundo, hredo⟩ := ih t1 (t0 :: u) [] h2
      refine ⟨t1 :: rs, ?_, ?_⟩
      · simp only [List.length_cons, Function.iterate_succ_apply']
        rw [happ, hundo]
        rfl
      · simp only [List.length_cons, Function.iterate_succ_apply]
        have hstep : redoState ⟨some t0, u, t1 :: rs⟩ =
            ⟨some t1, t0 :: u, rs⟩ := rfl
        rw [hstep, hredo, happ]

/-- C2: starting from live table `T0`, after a run of `N` successful
mutating operations, `N` calls of `undo()` restore the live table to a
state equal to `T0`, and `N` subsequent calls of `redo()` restore the
whole controller state (live table included) to the state after the
`N`-th operation; a subsequent `load()` empties both history stacks,
after which `undo()` is a no-op returning the live table unchanged. -/
theorem C2_undo_redo_inverse (ops : List (Table → Except PError Table))
    (s : ControllerState) (t0 : Table) (hdf : s.df = some t0)
    (hs : allSucceed ops s) :
    (undoState^[ops.length] (applyAll ops s)).df = some t0 ∧
    redoState^[ops.length] (undoState^[ops.length] (applyAll ops s)) =
      applyAll ops s ∧
    (∀ t', (loadState t' (applyAll ops s)).undoStack = [] ∧
      (loadState t' (applyAll ops s)).redoStack = [] ∧
      undoState (loadState t' (applyAll ops s)) =
        loadState t' (applyAll ops s) ∧
      (undoState (loadState t' (applyAll ops s))).df = some t') := by
  obtain ⟨d, u, r⟩ := s
  simp only at hdf
  subst hdf
  obtain ⟨rs, hundo, hredo⟩ := undo_redo_run ops t0 u r hs
  refine ⟨by rw [hundo], by rw [hundo, hredo], ?_⟩
  intro t'
  exact ⟨rfl, rfl, rfl, rfl⟩

theorem C2_undo_redo_inverse_witness :
    sCtrl.df = some tAB ∧ allSucceed ops2 sCtrl ∧
    (undoState^[ops2.length] (applyAll ops2 sCtrl)).df = some tAB ∧
    redoState^[ops2.length] (undoState^[ops2.length] (applyAll ops2 sCtrl)) =
      applyAll ops2 sCtrl := by
  have hs : allSucceed ops2 sCtrl := by
    simp only [ops2, allSucceed]
    exact ⟨rfl, rfl, trivial⟩
  have h := C2_undo_redo_inverse ops2 sCtrl tAB rfl hs
  exact ⟨rfl, hs, h.1, h.2.1⟩

/-! ## Claim C4 -/

theorem nonNA_filter_ne_na (vs : List Value) :
    nonNA (vs.filter (fun v => v ≠ Value.na)) = nonNA vs := by
  induction vs with
  | nil => rfl
  | cons v rest ih =>
    cases v <;> simp [nonNA, ih] <;>
      simpa [nonNA] using ih

theorem applyAgg_skipna (f : AggFun) (vs : List Value) :
    applyAgg f vs = applyAgg f (vs.filter (fun v => v ≠ Value.na)) := by
  have h : nonNA vs = nonNA (vs.filter (fun v => v ≠ Value.na)) :=
    (nonNA_filter_ne_na vs).symm
  cases f <;> simp only [applyAgg, h]
  rw [List.filter_filter]
  simp

theorem nonNA_eq_nil_of_all_na (vs : List Value)
    (h : ∀ v ∈ vs, v = Value.na) : nonNA vs = [] := by
  rw [nonNA, List.filterMap_eq_nil_iff]
  intro v hv
  rw [h v hv]

theorem allNums_eq_none_of_mem_na (ws : List Value)
    (h : Value.na ∈ ws) : allNums ws = none := by
  induction ws with
  | nil => cases h
  | cons w rest ih =>
    cases w with
    | na => rfl
    | num q =>
      rcases List.mem_cons.mp h with h' | h'
      · exact absurd h' (by simp)
      · simp [allNums, ih h']
    | str s => rfl
    | dt d => rfl

/-- C4 counterexample: the claim says a group consisting entirely of
missing markers yields a missing marker — "in particular not a
substitute value such as 0 for sum" — but pandas `sum` (default
`min_count=0`) gives exactly `0` for the all-missing group `A`. -/
theorem C4_counterexample :
    group_and_aggregate tAllNA "k" [("v", [.sum])] =
      .ok ⟨1, [("k", [Value.str "A"]), ("v_sum", [Value.num 0])]⟩ ∧
    Value.num 0 ≠ Value.na := by
  exact ⟨rfl, by decide⟩

/-- C4 amended: `groupAndAggregate` and `resampleTimeSeries` aggregate
with missing markers excluded (skip-NA), and an all-missing
group/bucket yields a missing marker for `mean`/`min`/`max` — but `0`
for `sum` and `count` (pandas `min_count=0` default); `rollingStat`
does not skip missing values at all: any window containing a missing
marker (and every partial leading window) yields a missing marker
(default `min_periods = window`). -/
theorem C4_skipna_aggregation :
    (∀ f vs, applyAgg f vs = applyAgg f (vs.filter (fun v => v ≠ Value.na))) ∧
    (∀ vs, nonNA vs = [] →
      applyAgg .mean vs = .na ∧ applyAgg .min vs = .na ∧
      applyAgg .max vs = .na) ∧
    (∀ vs, (∀ v ∈ vs, v = Value.na) →
      applyAgg .sum vs = .num 0 ∧ applyAgg .count vs = .num 0) ∧
    (∀ df by_ c f r, group_and_aggregate df by_ [(c, [f])] = .ok r →
      by_ ≠ c ++ "_" ++ aggName f →
      r.getCol (c ++ "_" ++ aggName f) =
        (distinctKeys ((df.getCol by_).filter (fun v => v ≠ Value.na))).map
          (fun k => applyAgg f (groupVals (df.getCol by_) (df.getCol c) k))) ∧
    (∀ vs window (f : List ℚ → ℚ) i, i < vs.length →
      (i + 1 < window ∨ Value.na ∈ (vs.drop (i + 1 - window)).take window) →
      (rollingApply vs window f)[i]? = some Value.na) := by
  refine ⟨applyAgg_skipna, ?_, ?_, ?_, ?_⟩
  · intro vs h
    refine ⟨?_, ?_, ?_⟩ <;> simp [applyAgg, h, listMin, listMax]
  · intro vs h
    have hn := nonNA_eq_nil_of_all_na vs h
    constructor
    · simp [applyAgg, hn]
    · have hfil : vs.filter (fun v => v ≠ Value.na) = [] := by
        rw [List.filter_eq_nil_iff]
        intro v hv
        simp [h v hv]
      simp only [applyAgg]
      rw [hfil]
      simp
  · intro df by_ c f r h hne
    unfold group_and_aggregate at h
    by_cases hb : ¬ df.hasCol by_
    · rw [if_pos hb] at h
      exact Except.noConfusion h
    · rw [if_neg hb] at h
      by_cases hcc : df.hasCol c
      · simp only [List.map_cons, List.map_nil, hcc] at h
        rw [show (List.filter (fun c' => ¬ df.hasCol c') [c]) = [] by
          simp [hcc]] at h
        simp only [ne_eq, not_true_eq_false, if_false, reduceIte] at h
        injection h with h
        subst h
        simp only [Table.getCol, List.flatMap_cons, List.flatMap_nil,
          List.map_cons, List.map_nil, List.append_nil, List.find?]
        rw [show (decide (by_ = c ++ "_" ++ aggName f)) = false by
          simp [hne]]
        simp
      · exfalso
        simp only [List.map_cons, List.map_nil] at h
        rw [show (List.filter (fun c' => ¬ df.hasCol c') [c]) = [c] by
          simp [hcc]] at h
        simp at h
  · intro vs window f i hi hcond
    unfold rollingApply
    rw [List.getElem?_map, List.getElem?_range hi]
    simp only [Option.map_some']
    rcases hcond with h | h
    · simp [h]
    · by_cases hw : i + 1 < window
      · simp [hw]
      · simp only [hw, if_false]
        simp [rollOfAgg, allNums_eq_none_of_mem_na _ h]

theorem C4_skipna_aggregation_witness :
    (applyAgg .mean [Value.na] = .na ∧ applyAgg .min [Value.na] = .na ∧
      applyAgg .max [Value.na] = .na) ∧
    (applyAgg .sum [Value.na] = .num 0 ∧
      applyAgg .count [Value.na] = .num 0) ∧
    Table.getCol ⟨1, [("k", [Value.str "A"]), ("v_sum", [Value.num 0])]⟩
        ("v" ++ "_" ++ aggName .sum) =
      (distinctKeys ((tAllNA.getCol "k").filter
          (fun v => v ≠ Value.na))).map
        (fun k => applyAgg .sum (groupVals (tAllNA.getCol "k")
          (tAllNA.getCol "v") k)) ∧
    (rollingApply [Value.num 1, Value.na] 2 List.sum)[1]? =
      some Value.na :=
  ⟨C4_skipna_aggregation.2.1 [Value.na] rfl,
   C4_skipna_aggregation.2.2.1 [Value.na] (by simp),
   C4_skipna_aggregation.2.2.2.1 tAllNA "k" "v" .sum
     ⟨1, [("k", [Value.str "A"]), ("v_sum", [Value.num 0])]⟩ rfl
     (by decide),
   C4_skipna_aggregation.2.2.2.2 [Value.num 1, Value.na] 2 List.sum 1
     (by decide) (Or.inr (by decide))⟩

/-! ## Claim C5 -/

theorem weekStart_emod (d : Int) : weekStart d % 7 = 3 := by
  unfold weekStart
  omega

theorem weekStart_eq_iff (d l : Int) (h : l % 7 = 3) :
    weekStart d = l ↔ l ≤ d ∧ d < l + 7 := by
  unfold weekStart
  omega

theorem bucketVals_weekStart (dates : List Int) (vals : List Value)
    (l : Int) (h : l % 7 = 3) :
    bucketVals dates vals weekStart l =
      ((dates.zip vals).filter
        (fun p => decide (l ≤ p.1 ∧ p.1 < l + 7))).map (fun p => p.2) := by
  unfold bucketVals
  congr 1
  apply List.filter_congr
  intro p _
  exact decide_eq_decide.mpr (weekStart_eq_iff p.1 l h)

/-- C5: with weekly frequency the resampled buckets are left-closed
left-labeled week intervals `[l, l+7)` whose boundaries fall on the
fixed Sunday anchor (`l % 7 = 3`, day 3 being a Sunday), regardless of
the weekday of the data's earliest timestamp, and the bucket boundary
is emitted as the leading regular column of the result (not as a row
index). -/
theorem C5_weekly_resample (df : Table) (dtcol : String)
    (aggs : List (String × AggFun)) (dates : List Int) (r : Table)
    (hd : parseDates (df.getCol dtcol) = some dates)
    (h : resample_time_series df dtcol "W" aggs = .ok r) :
    ∃ labels : List Int,
      r.nrows = labels.length ∧
      (∀ l ∈ labels, l % 7 = 3) ∧
      r.cols = (dtcol, labels.map Value.dt) ::
        aggs.map (fun cf => (cf.1, labels.map (fun l =>
          applyAgg cf.2 (((dates.zip (df.getCol cf.1)).filter
            (fun p => decide (l ≤ p.1 ∧ p.1 < l + 7))).map
              (fun p => p.2))))) := by
  unfold resample_time_series at h
  by_cases hcol : ¬ df.hasCol dtcol
  · rw [if_pos hcol] at h
    exact Except.noConfusion h
  · rw [if_neg hcol] at h
    simp only [hd] at h
    by_cases hma :
        ((aggs.map (fun p => p.1)).filter (fun c => ¬ df.hasCol c)) ≠ []
    · rw [if_pos hma] at h
      exact Except.noConfusion h
    · rw [if_neg hma] at h
      simp only [true_or, if_true] at h
      injection h with h
      subst h
      cases dates with
      | nil =>
        refine ⟨[], rfl, by simp, ?_⟩
        simp [resampleBy]
      | cons d0 rest =>
        refine ⟨(List.range
            (((weekStart (rest.foldl max d0) -
                weekStart (rest.foldl min d0)) / 7).toNat + 1)).map
            (fun i : Nat => weekStart (rest.foldl min d0) + 7 * (i : Int)),
          ?_, ?_, ?_⟩
        · rw [List.length_map, List.length_range]
          rfl
        · intro l hl
          obtain ⟨i, _, hi⟩ := List.mem_map.mp hl
          have hm := weekStart_emod (rest.foldl min d0)
          omega
        · simp only [resampleBy]
          congr 1
          apply List.map_congr_left
          intro cf _
          congr 1
          apply List.map_congr_left
          intro l hl
          obtain ⟨i, _, hi⟩ := List.mem_map.mp hl
          have hm := weekStart_emod (rest.foldl min d0)
          have hl7 : l % 7 = 3 := by omega
          rw [bucketVals_weekStart _ _ _ hl7]

theorem C5_weekly_resample_witness :
    ∃ labels : List Int,
      (resampleBy tWeek [3, 4, 5, 6, 7, 8, 9] weekStart 7 "ts"
        [("value", AggFun.sum)]).nrows = labels.length ∧
      (∀ l ∈ labels, l % 7 = 3) ∧
      (resampleBy tWeek [3, 4, 5, 6, 7, 8, 9] weekStart 7 "ts"
        [("value", AggFun.sum)]).cols =
        ("ts", labels.map Value.dt) ::
          [("value", AggFun.sum)].map (fun cf => (cf.1, labels.map (fun l =>
            applyAgg cf.2
              ((([3, 4, 5, 6, 7, 8, 9].zip (tWeek.getCol cf.1)).filter
                (fun p => decide (l ≤ p.1 ∧ p.1 < l + 7))).map
                  (fun p => p.2))))) :=
  C5_weekly_resample tWeek "ts" [("value", AggFun.sum)] [3, 4, 5, 6, 7, 8, 9]
    (resampleBy tWeek [3, 4, 5, 6, 7, 8, 9] weekStart 7 "ts"
      [("value", AggFun.sum)]) rfl rfl
